import Mathlib

/-!
Verification of the scylla proxy-pool manager core against its specification.

The Python source under `scylla/` is shallowly embedded: dictionaries become
association lists, SQL `UPDATE`/`INSERT` statements become pure state
transitions, timestamps become integers, float seconds become rationals, and
network effects are passed in as explicit oracles.
-/

namespace Scylla

/-! ## Python string semantics used by the validator -/

/-- Character-list substring test: Python `needle in hay` for strings. -/
def isSubChars (needle : List Char) : List Char → Bool
  | [] => needle.isEmpty
  | c :: rest => needle.isPrefixOf (c :: rest) || isSubChars needle rest

/-- Python `needle in hay` (substring containment) on strings. -/
def containsSub (needle hay : String) : Bool :=
  isSubChars needle.toList hay.toList

/-- Python `str.lower()` restricted to ASCII (header names, header values and
IP strings are ASCII), character by character. -/
def lowerStr (s : String) : String :=
  String.mk (s.toList.map Char.toLower)

/-- Python `str.title()` restricted to ASCII (all header names are ASCII):
a letter is uppercased when the previous character is not a letter and
lowercased otherwise; non-letters pass through. -/
def pytitle (s : String) : String :=
  String.mk (s.toList.foldl
    (fun (acc : List Char × Bool) c =>
      if c.isAlpha then
        (acc.1 ++ [if acc.2 then c.toLower else c.toUpper], true)
      else
        (acc.1 ++ [c], false))
    ([], false)).1

/-- Python truthiness of an `Optional[str]`: `None` and `""` are falsy. -/
def truthy : Option String → Bool
  | none => false
  | some s => !s.isEmpty

/-- Python `a or b` on `Optional[str]` values: `a` when truthy, else `b`. -/
def pyOr (a b : Option String) : Option String :=
  if truthy a then a else b

/-- Response headers: a Python `dict` rendered as an association list
(first binding wins, as keys of a dict are unique). -/
abbrev Headers := List (String × String)

/-! ## `ValidatorService._detect_anonymity` (validator_service.py:124-162) -/

/-- `ip_exposure_headers` (validator_service.py:135). -/
def ip_exposure_headers : List String :=
  ["x-forwarded-for", "x-real-ip", "client-ip", "forwarded"]

/-- `proxy_indicator_headers` (validator_service.py:147-154). -/
def proxy_indicator_headers : List String :=
  ["via", "x-proxy-id", "x-proxy", "proxy-connection", "x-forwarded", "forwarded-for"]

/-- Body of the first loop of `_detect_anonymity` (lines 138-144):
`header_value = headers.get(name) or headers.get(name.title())`, and the loop
returns `"transparent"` when `header_value` is truthy and
`proxy_ip.lower() not in header_value.lower()`. -/
def exposureHit (headers : Headers) (proxy_ip : String) (name : String) : Bool :=
  match pyOr (headers.lookup name) (headers.lookup (pytitle name)) with
  | none => false
  | some v => !v.isEmpty && !containsSub (lowerStr proxy_ip) (lowerStr v)

/-- Body of the second loop of `_detect_anonymity` (lines 157-159):
`name in headers or name.title() in headers` (dict key membership). -/
def indicatorHit (headers : Headers) (name : String) : Bool :=
  (headers.lookup name).isSome || (headers.lookup (pytitle name)).isSome

/-- `ValidatorService._detect_anonymity(headers, proxy_ip)`.  The two
early-return `for` loops return a constant on the first hit, which is exactly
`List.any` over the scanned name list. -/
def detect_anonymity (headers : Headers) (proxy_ip : String) : String :=
  if ip_exposure_headers.any (exposureHit headers proxy_ip) then "transparent"
  else if proxy_indicator_headers.any (indicatorHit headers) then "anonymous"
  else "elite"

/-- The suspicious-name set stated by the specification's anonymity rule. -/
def suspicious_set : List String :=
  ["x-forwarded-for", "x-real-ip", "via", "x-proxy-id", "proxy-connection",
   "forwarded", "client-ip", "x-client-ip"]

/-- The anonymity classifier as the specification words it (for refinement
comparison only; `detect_anonymity` above is the one read off the source):
transparent iff some header value contains the proxy IP literally, else
anonymous iff some suspicious header name (case-insensitive) is present with a
non-empty value, else elite. -/
def specClassify (headers : Headers) (proxy_ip : String) : String :=
  if headers.any (fun kv => containsSub proxy_ip kv.2) then "transparent"
  else if headers.any (fun kv =>
      suspicious_set.contains (lowerStr kv.1) && !kv.2.isEmpty) then "anonymous"
  else "elite"

/-! ## `ProxyService.record_validation_result` (proxy_service.py:136-177)

The SQL `UPDATE proxies SET ... WHERE id = $1` is a pure transition on the
row's fields.  Timestamps (`NOW()`) are passed in as an integer `now`;
`response_time` (a Python float of seconds) is a rational. -/

/-- One stored row of the `proxies` table, restricted to the columns touched
by `record_validation_result`.  Counters are integers, as in SQL. -/
structure ProxyRow where
  success_count : Int
  fail_count : Int
  status : Int
  last_checked : Option Int
  last_success : Option Int
  speed : Option Rat
  anonymity : Option String
  updated_at : Option Int
  deriving DecidableEq

/-- `ProxyStatus` codes (models/proxy.py:16-21). -/
def statusPENDING : Int := 0
def statusSUCCESS : Int := 1
def statusFAILED : Int := 2

/-- Round a rational to the nearest integer, ties to even — the behaviour of
Python's builtin `round`. -/
def roundHalfEven (q : Rat) : Int :=
  let f := ⌊q⌋
  let r := q - (f : Rat)
  if r < 1/2 then f
  else if 1/2 < r then f + 1
  else if f % 2 = 0 then f else f + 1

/-- Python `round(x, 2)`: round to two decimal places. -/
def round2 (q : Rat) : Rat :=
  (roundHalfEven (q * 100) : Rat) / 100

/-- `ProxyService.record_validation_result(proxy_id, is_success,
response_time, anonymity)` applied to the row it addresses, at time `now`.
Mirrors the single SQL UPDATE (proxy_service.py:153-177): the Python layer
first rounds `response_time` to 2 decimals when it is not `None`. -/
def record_validation_result (row : ProxyRow) (is_success : Bool)
    (response_time : Option Rat) (anonymity : Option String) (now : Int) :
    ProxyRow :=
  let response_time := response_time.map round2
  let target_status := if is_success then statusSUCCESS else statusFAILED
  { success_count := if is_success then row.success_count + 1 else 0
    fail_count := if is_success then max (row.fail_count - 1) 0
                  else row.fail_count + 1
    status := target_status
    last_checked := some now
    last_success := if is_success then some now else row.last_success
    speed := if is_success then response_time else row.speed
    anonymity := if is_success then anonymity else row.anonymity
    updated_at := some now }

/-- One call of `record_validation_result` (a verdict being persisted),
with `t` the value `NOW()` takes during that call. -/
structure RecordCall where
  is_success : Bool
  response_time : Option Rat
  anonymity : Option String
  t : Int
  deriving DecidableEq

/-- A sequence of `record_validation_result` calls applied to one row. -/
def applyVerdicts (row : ProxyRow) (calls : List RecordCall) : ProxyRow :=
  calls.foldl
    (fun r c => record_validation_result r c.is_success c.response_time c.anonymity c.t)
    row

/-! ## `ValidatorService.validate_proxy` / `validate_batch`
(validator_service.py:58-225)

The outbound HTTP request is an oracle: for each proxy the network either
returns a 2xx response (with elapsed seconds and response headers), a non-2xx
response, or raises (timeout / connect error / protocol error).  Everything
else in `validate_proxy` is pure and is translated directly. -/

/-- Fields of a `Proxy` model instance consumed by the validator. -/
structure Proxy where
  ip : String
  port : Int
  protocol : String
  id : Option Int
  deriving DecidableEq

/-- Outcome of the single `GET` through the proxy. -/
inductive HttpResult where
  /-- `response.ok` (2xx) with elapsed seconds and response headers. -/
  | ok (elapsed : Rat) (headers : Headers)
  /-- a response arrived but `response.ok` is false. -/
  | notOk
  /-- the request raised (timeout, connect error, TLS failure, ...). -/
  | raised
  deriving DecidableEq

/-- The verdict tuple `(proxy_id, success, response_time, anonymity)`. -/
abbrev Verdict := Int × Bool × Option Rat × Option String

/-- `ValidatorService.validate_proxy(proxy)` given the network outcome
`http`.  The second component records whether an HTTP request was issued at
all: `if not proxy.id` (id `None` or `0`) returns `(0, False, None, None)`
before any request is made (lines 74-76). -/
def validate_proxy (p : Proxy) (http : HttpResult) : Verdict × Bool :=
  if p.id.getD 0 = 0 then ((0, false, none, none), false)
  else
    match http with
    | .ok elapsed headers =>
        ((p.id.getD 0, true, some elapsed, some (detect_anonymity headers p.ip)), true)
    | .notOk => ((p.id.getD 0, false, none, none), true)
    | .raised => ((p.id.getD 0, false, none, none), true)

/-- The dictionary returned by `validate_batch`. -/
structure BatchStats where
  total : Nat
  success : Nat
  failed : Nat
  results : List Verdict
  deriving DecidableEq

/-- `ValidatorService.validate_batch(proxies)` under network oracle `http`.
`asyncio.gather` keeps one result per input in input order; `validate_proxy`
catches every exception internally, so each gathered result is a 4-tuple and
the loop at lines 204-218 appends it and bumps one of the two counters. -/
def validate_batch (proxies : List Proxy) (http : Proxy → HttpResult) :
    BatchStats :=
  if proxies.isEmpty then ⟨0, 0, 0, []⟩
  else
    let results := proxies.map (fun p => (validate_proxy p (http p)).1)
    { total := proxies.length
      success := (results.filter (fun r => r.2.1 = true)).length
      failed := (results.filter (fun r => r.2.1 = false)).length
      results := results }

/-! ## `execute_validation` persistence loop (validate_base.py:49-56) -/

/-- The proxy store as seen by the persistence loop: rows addressed by id. -/
abbrev Store := List (Int × ProxyRow)

/-- `record_validation_result` as a store operation:
`UPDATE ... WHERE id = $1` touches exactly the rows whose id matches. -/
def storeRecord (db : Store) (r : Verdict) (now : Int) : Store :=
  db.map (fun e =>
    if e.1 = r.1 then (e.1, record_validation_result e.2 r.2.1 r.2.2.1 r.2.2.2 now)
    else e)

/-- The persistence loop of `execute_validation`: for each verdict,
`if proxy_id:` (non-zero) record it, else skip. -/
def execute_validation (db : Store) (results : List Verdict) (now : Int) :
    Store :=
  results.foldl (fun d r => if r.1 ≠ 0 then storeRecord d r now else d) db

/-! ## `Task.run` and the scheduler tick loop (scheduler.py:50-106) -/

/-- Mutable state of a `Task` (scheduler.py:40-48). -/
structure TaskState where
  interval : Int
  last_run : Option Int
  next_run : Option Int
  is_running : Bool
  execution_count : Nat
  failure_count : Nat
  deriving DecidableEq

/-- `Task.run()` fired at wall-clock time `start` (`datetime.now()` on
entry); `ok` tells whether `await self.func()` returned or raised.  Returns
the new state and whether `func` was invoked.  When `is_running` is set the
method returns at once (lines 59-63); otherwise the `try/except/finally`
updates counters, clears `is_running` and advances `next_run` from its
previous value, or seeds it from `start` when it was unset (lines 91-97). -/
def Task.run (ts : TaskState) (start : Int) (ok : Bool) : TaskState × Bool :=
  if ts.is_running then (ts, false)
  else
    let ts1 :=
      if ok then
        { ts with last_run := some start, execution_count := ts.execution_count + 1 }
      else
        { ts with failure_count := ts.failure_count + 1 }
    let nr : Int :=
      match ts.next_run with
      | some t => t + ts.interval
      | none => start + ts.interval
    ({ ts1 with is_running := false, next_run := some nr }, true)

/-- A sequence of completed `Task.run` invocations, each a pair
`(start time, func returned normally?)`. -/
def runSeq (ts : TaskState) (ticks : List (Int × Bool)) : TaskState :=
  ticks.foldl (fun s t => (Task.run s t.1 t.2).1) ts

/-! ## `ProxyService.add_proxy` / `add_batch` upsert (proxy_service.py:66-134) -/

/-- A row of the `proxies` table as inserted by the upsert (the columns named
in the INSERT, plus the store-assigned id). -/
structure DBRow where
  id : Int
  ip : String
  port : Int
  protocol : String
  country : Option String
  source : String
  status : Int
  deriving DecidableEq

/-- The candidate tuple bound to `VALUES ($1,...,$6)`. -/
structure Candidate where
  ip : String
  port : Int
  protocol : String
  country : Option String
  source : String
  status : Int
  deriving DecidableEq

/-- The `proxies` table with its id sequence. -/
structure DB where
  rows : List DBRow
  next_id : Int
  deriving DecidableEq

/-- Row `r` conflicts with candidate `p` on the unique key
`(ip, port, protocol)`. -/
def sameKey (r : DBRow) (p : Candidate) : Bool :=
  r.ip == p.ip && r.port == p.port && r.protocol == p.protocol

/-- `INSERT INTO proxies ... ON CONFLICT (ip, port, protocol) DO NOTHING
RETURNING id` — the statement shared by `add_proxy` (which reads the returned
id with `fetchval`, giving `None` on conflict) and each row of `add_batch`'s
`executemany`. -/
def upsert (db : DB) (p : Candidate) : DB × Option Int :=
  if db.rows.any (fun r => sameKey r p) then (db, none)
  else
    ({ rows := db.rows ++
        [⟨db.next_id, p.ip, p.port, p.protocol, p.country, p.source, p.status⟩]
       next_id := db.next_id + 1 },
     some db.next_id)

/-- A sequence of upsert attempts (any serialisation of concurrent
`add_proxy`/`add_batch` calls: the store executes them one at a time),
returning the final table and each attempt's `RETURNING id` result. -/
def upsertAll (db : DB) (ps : List Candidate) : DB × List (Option Int) :=
  match ps with
  | [] => (db, [])
  | p :: rest =>
      let step := upsert db p
      let cont := upsertAll step.1 rest
      (cont.1, step.2 :: cont.2)

/-- Number of rows of `db` whose unique key equals `k = (ip, port, protocol)`. -/
def countKey (db : DB) (k : String × Int × String) : Nat :=
  (db.rows.filter (fun r => r.ip == k.1 && r.port == k.2.1 && r.protocol == k.2.2)).length

/-! ## Scheduler startup with the coordination cache
(redis_client.py:39-56, scheduler.py:156-204) -/

/-- A live connection to the coordination cache. -/
structure RedisConn where
  acquiredLock : Bool
  deriving DecidableEq

/-- The Python exception escaping `Scheduler._initialize_tasks` when
`redis_client.client` is `None`. -/
inductive PyError where
  /-- `AttributeError: 'NoneType' object has no attribute 'set'`. -/
  | attributeErrorNone
  deriving DecidableEq

/-- `RedisClient.connect()` (redis_client.py:39-56): on failure the
exception is caught and `client` is left as `None`; on success `client` is a
connection whose later `SET ... NX EX 300` answers `acquiredLock`. -/
def redis_connect (reachable : Bool) (acquiredLock : Bool) : Option RedisConn :=
  if reachable then some ⟨acquiredLock⟩ else none

/-- Task names registered by the leader (scheduler.py:159-181). -/
def shared_tasks : List String :=
  ["Proxy Crawl", "Proxy Cleanup", "Country Update", "Success Proxy Validation"]

/-- Task name registered by every worker (scheduler.py:184-188). -/
def per_worker_tasks : List String :=
  ["Pending Proxy Validation"]

/-- `Scheduler._initialize_tasks` (scheduler.py:156-188): evaluates
`redis_client.client.set(lock_key, 1, ex=300, nx=True)` with no guard, so a
`None` client raises `AttributeError` out of the method; with a client, the
lock winner registers the shared tasks and everyone adds the per-worker
task. -/
def init_tasks (client : Option RedisConn) : Except PyError (List String) :=
  match client with
  | none => .error .attributeErrorNone
  | some c =>
      .ok ((if c.acquiredLock then shared_tasks else []) ++ per_worker_tasks)

/-- `Scheduler.initialize` (scheduler.py:190-204) restricted to the cache
interaction: `redis_client.connect()` (which swallows its own failure) then
`_initialize_tasks()`; the result is the registered task list or the
exception that escapes. -/
def scheduler_init (reachable : Bool) (acquiredLock : Bool) :
    Except PyError (List String) :=
  init_tasks (redis_connect reachable acquiredLock)

/-! ## Configuration defaults (config.py:74-79, validator_service.py:34-39) -/

/-- The validator-related fields of `Settings` with their declared defaults
(config.py:69-79). -/
structure Settings where
  proxy_test_url : String
  proxy_test_timeout : Int
  max_concurrent_validators : Int
  deriving DecidableEq

/-- `Settings()` with no environment overrides. -/
def default_settings : Settings :=
  { proxy_test_url := "https://httpbin.org/get"
    proxy_test_timeout := 15
    max_concurrent_validators := 50 }

/-- `ValidatorService.__init__`: `self.timeout = settings.proxy_test_timeout`
(validator_service.py:37) — the per-request timeout handed to every proxy
check (line 88). -/
def validator_timeout (s : Settings) : Int :=
  s.proxy_test_timeout

/-! # Theorems -/

/-- C1 (counterexample): with headers `{x-forwarded-for: 1.2.3.4}` and proxy
IP `9.9.9.9`, no header value contains the proxy IP and a suspicious header
name is present with a non-empty value, so the claimed rule yields
`anonymous`; the code returns `transparent` (it returns transparent when an
exposure header does NOT contain the proxy IP).  The claim is false. -/
theorem detect_anonymity_diverges_from_spec :
    detect_anonymity [("x-forwarded-for", "1.2.3.4")] "9.9.9.9" = "transparent" ∧
    specClassify [("x-forwarded-for", "1.2.3.4")] "9.9.9.9" = "anonymous" :=
  ⟨rfl, rfl⟩

/-- C1 (amended): `_detect_anonymity` returns `transparent` iff some name in
{x-forwarded-for, x-real-ip, client-ip, forwarded}, looked up exactly or in
title case, has a truthy value that does not contain the proxy IP
case-insensitively; otherwise `anonymous` iff some name in {via, x-proxy-id,
x-proxy, proxy-connection, x-forwarded, forwarded-for} is a key exactly or in
title case; otherwise `elite`. -/
theorem detect_anonymity_characterization (headers : Headers) (proxy_ip : String) :
    (detect_anonymity headers proxy_ip = "transparent" ↔
      ∃ n ∈ ip_exposure_headers, exposureHit headers proxy_ip n = true) ∧
    (detect_anonymity headers proxy_ip = "anonymous" ↔
      (∀ n ∈ ip_exposure_headers, exposureHit headers proxy_ip n = false) ∧
      ∃ n ∈ proxy_indicator_headers, indicatorHit headers n = true) ∧
    (detect_anonymity headers proxy_ip = "elite" ↔
      (∀ n ∈ ip_exposure_headers, exposureHit headers proxy_ip n = false) ∧
      (∀ n ∈ proxy_indicator_headers, indicatorHit headers n = false)) := by
  unfold detect_anonymity
  split_ifs with h1 h2 <;>
    simp_all [List.any_eq_true, List.any_eq_false]

/-- C2 (counterexample): a successful verdict with supplied response time
`0.123` stores speed `0.12`, not the supplied value: the code rounds the
response time to two decimals before the UPDATE. -/
theorem record_speed_not_supplied :
    (record_validation_result ⟨0, 0, 0, none, none, none, none, none⟩ true
        (some (123/1000)) (some "elite") 5).speed ≠ some (123/1000) := by
  have h : round2 (123/1000) ≠ 123/1000 := by
    have h1 : ⌊(123/1000 * 100 : ℚ)⌋ = 12 := by norm_num [Int.floor_eq_iff]
    rw [round2, roundHalfEven]
    norm_num [h1]
  simpa [record_validation_result] using h

/-- C2 (amended): `record_validation_result` with success=true increments
`success_count`, clamps `fail_count` to max(fail_count−1, 0), sets status to
SUCCESS, sets `last_success` and `last_checked` to now, overwrites
`anonymity` with the supplied value and `speed` with the supplied response
time rounded to two decimal places; with success=false it increments
`fail_count`, zeroes `success_count`, sets status to FAILED, sets
`last_checked` to now, and leaves `speed`, `anonymity` and `last_success`
unchanged. -/
theorem record_validation_result_transition (row : ProxyRow) (rt : Option Rat)
    (anon : Option String) (now : Int) :
    ((record_validation_result row true rt anon now).success_count = row.success_count + 1 ∧
     (record_validation_result row true rt anon now).fail_count = max (row.fail_count - 1) 0 ∧
     (record_validation_result row true rt anon now).status = statusSUCCESS ∧
     (record_validation_result row true rt anon now).last_success = some now ∧
     (record_validation_result row true rt anon now).last_checked = some now ∧
     (record_validation_result row true rt anon now).speed = rt.map round2 ∧
     (record_validation_result row true rt anon now).anonymity = anon) ∧
    ((record_validation_result row false rt anon now).fail_count = row.fail_count + 1 ∧
     (record_validation_result row false rt anon now).success_count = 0 ∧
     (record_validation_result row false rt anon now).status = statusFAILED ∧
     (record_validation_result row false rt anon now).last_checked = some now ∧
     (record_validation_result row false rt anon now).speed = row.speed ∧
     (record_validation_result row false rt anon now).anonymity = row.anonymity ∧
     (record_validation_result row false rt anon now).last_success = row.last_success) := by
  simp [record_validation_result]

/-- C8: with the coordination cache unreachable, `RedisClient.connect`
swallows its failure and leaves `client = None`, and
`Scheduler._initialize_tasks` then evaluates `redis_client.client.set`,
raising `AttributeError` out of `Scheduler.initialize` — initialization does
not complete and no tasks are registered, contradicting the claim. -/
theorem scheduler_init_cache_down :
    scheduler_init false true = .error .attributeErrorNone ∧
    scheduler_init false false = .error .attributeErrorNone ∧
    scheduler_init true true = .ok (shared_tasks ++ per_worker_tasks) :=
  ⟨rfl, rfl, rfl⟩

/-- C9 (counterexample): the validator's per-request timeout default is not
25 seconds. -/
theorem validator_timeout_default_ne_25 :
    validator_timeout default_settings ≠ 25 := by
  decide

/-- C9 (amended): the per-request timeout the validator applies to each proxy
check (`settings.proxy_test_timeout`) defaults to 15 seconds. -/
theorem validator_timeout_default :
    validator_timeout default_settings = 15 :=
  rfl

/-- A verdict sequence ending in a success: splitting off the last call. -/
theorem applyVerdicts_append_one (row : ProxyRow) (calls : List RecordCall)
    (c : RecordCall) :
    applyVerdicts row (calls ++ [c])
      = record_validation_result (applyVerdicts row calls)
          c.is_success c.response_time c.anonymity c.t := by
  simp [applyVerdicts, List.foldl_append]

/-- `fail_count` never goes negative under `record_validation_result`. -/
theorem applyVerdicts_fail_count_nonneg (calls : List RecordCall) :
    ∀ row : ProxyRow, 0 ≤ row.fail_count →
      0 ≤ (applyVerdicts row calls).fail_count := by
  induction calls with
  | nil => intro row h; exact h
  | cons c rest ih =>
      intro row h
      have hstep : 0 ≤ (record_validation_result row c.is_success
          c.response_time c.anonymity c.t).fail_count := by
        cases hc : c.is_success
        all_goals simp [record_validation_result]
        all_goals omega
      simpa [applyVerdicts] using ih _ hstep

/-- C3 (counterexample): starting from a fresh row, two failed verdicts
followed by a successful one leave `fail_count = 1`, not `0`: a success only
decrements the failure counter (clamped at zero), it does not reset it. -/
theorem applyVerdicts_success_keeps_failures :
    (applyVerdicts ⟨0, 0, 0, none, none, none, none, none⟩
        [⟨false, none, none, 1⟩, ⟨false, none, none, 2⟩, ⟨true, none, none, 3⟩]).fail_count
      = 1 ∧
    ¬ (applyVerdicts ⟨0, 0, 0, none, none, none, none, none⟩
        [⟨false, none, none, 1⟩, ⟨false, none, none, 2⟩, ⟨true, none, none, 3⟩]).fail_count
      = 0 := by
  decide

/-- C3 (amended): for every non-empty sequence of `record_validation_result`
calls on one row (with a non-negative initial `fail_count`), the final status
is SUCCESS or FAILED; if the last call succeeded, the final `fail_count` is
max(f−1, 0) where `f` is the `fail_count` just before that call, and
`last_success` is that call's timestamp; if the last call failed, the final
`fail_count` is at least 1 and `success_count` is 0. -/
theorem applyVerdicts_last_call (row : ProxyRow) (h0 : 0 ≤ row.fail_count)
    (calls : List RecordCall) (c : RecordCall) :
    ((applyVerdicts row (calls ++ [c])).status = statusSUCCESS ∨
     (applyVerdicts row (calls ++ [c])).status = statusFAILED) ∧
    (c.is_success = true →
      (applyVerdicts row (calls ++ [c])).fail_count
          = max ((applyVerdicts row calls).fail_count - 1) 0 ∧
      (applyVerdicts row (calls ++ [c])).last_success = some c.t) ∧
    (c.is_success = false →
      1 ≤ (applyVerdicts row (calls ++ [c])).fail_count ∧
      (applyVerdicts row (calls ++ [c])).success_count = 0) := by
  have hp := applyVerdicts_fail_count_nonneg calls row h0
  rw [applyVerdicts_append_one]
  cases hc : c.is_success
  all_goals simp [record_validation_result, hc, statusSUCCESS, statusFAILED]
  all_goals omega

/-- C3 witness: a concrete failing last call after one success. -/
theorem applyVerdicts_last_call_witness :
    1 ≤ (applyVerdicts ⟨0, 0, 0, none, none, none, none, none⟩
        ([⟨true, none, none, 1⟩] ++ [⟨false, none, none, 2⟩])).fail_count ∧
    (applyVerdicts ⟨0, 0, 0, none, none, none, none, none⟩
        ([⟨true, none, none, 1⟩] ++ [⟨false, none, none, 2⟩])).success_count = 0 :=
  (applyVerdicts_last_call ⟨0, 0, 0, none, none, none, none, none⟩ (by decide)
    [⟨true, none, none, 1⟩] ⟨false, none, none, 2⟩).2.2 rfl

/-- Each verdict tuple carries its proxy's id, with 0 for a missing id. -/
theorem validate_proxy_id (p : Proxy) (http : HttpResult) :
    ((validate_proxy p http).1).1 = p.id.getD 0 := by
  unfold validate_proxy
  split_ifs with h
  · simpa using h.symm
  · cases http <;> rfl

/-- Partition of the verdict list by the success flag. -/
theorem verdict_filter_partition (l : List Verdict) :
    (l.filter (fun r => r.2.1 = true)).length
      + (l.filter (fun r => r.2.1 = false)).length = l.length := by
  have h := List.length_eq_length_filter_add (l := l) (fun r => r.2.1)
  simp only [Bool.decide_eq_true, Bool.decide_eq_false] at *
  omega

/-- C4 (counterexample): a batch of two distinct id-less proxies produces two
verdicts that both carry proxy id 0 — the verdict ids are not distinct (and 0
is not the id of any input proxy). -/
theorem validate_batch_ids_not_distinct :
    ¬ (((validate_batch
          [⟨"1.2.3.4", 80, "http", none⟩, ⟨"5.6.7.8", 81, "http", none⟩]
          (fun _ => .raised)).results.map (fun r => r.1)).Nodup) := by
  decide

/-- C4 (amended): `validate_batch` returns `total` equal to the input length,
one verdict per input proxy in input order, `success + failed = total`, and
the i-th verdict carries the i-th proxy's id (0 when that proxy has no id);
in particular, when the input ids are pairwise distinct the verdict ids are
pairwise distinct and drawn from the input. -/
theorem validate_batch_spec (proxies : List Proxy) (http : Proxy → HttpResult) :
    (validate_batch proxies http).total = proxies.length ∧
    (validate_batch proxies http).results.length = proxies.length ∧
    (validate_batch proxies http).success + (validate_batch proxies http).failed
      = proxies.length ∧
    (validate_batch proxies http).results.map (fun r => r.1)
      = proxies.map (fun p => p.id.getD 0) ∧
    ((proxies.map (fun p => p.id.getD 0)).Nodup →
      ((validate_batch proxies http).results.map (fun r => r.1)).Nodup) := by
  cases proxies with
  | nil => simp [validate_batch]
  | cons q qs =>
      have hmap : (validate_batch (q :: qs) http).results.map (fun r => r.1)
          = (q :: qs).map (fun p => p.id.getD 0) := by
        show ((q :: qs).map (fun p => (validate_proxy p (http p)).1)).map
            (fun r => r.1) = _
        rw [List.map_map]
        exact List.map_congr_left (fun p _ => validate_proxy_id p (http p))
      refine ⟨rfl, by simp [validate_batch], ?_, hmap, ?_⟩
      · show (((q :: qs).map (fun p => (validate_proxy p (http p)).1)).filter
              (fun r => r.2.1 = true)).length
            + (((q :: qs).map (fun p => (validate_proxy p (http p)).1)).filter
              (fun r => r.2.1 = false)).length = (q :: qs).length
        rw [verdict_filter_partition]
        simp
      · intro hnd
        rw [hmap]
        exact hnd

/-- C4 witness: two proxies with distinct present ids give distinct verdict
ids. -/
theorem validate_batch_spec_witness :
    (([⟨"1.2.3.4", 80, "http", some 1⟩, ⟨"5.6.7.8", 81, "http", some 2⟩] :
        List Proxy).map (fun p => p.id.getD 0)).Nodup ∧
    ((validate_batch
        [⟨"1.2.3.4", 80, "http", some 1⟩, ⟨"5.6.7.8", 81, "http", some 2⟩]
        (fun _ => .raised)).results.map (fun r => r.1)).Nodup :=
  ⟨by decide,
   (validate_batch_spec
      [⟨"1.2.3.4", 80, "http", some 1⟩, ⟨"5.6.7.8", 81, "http", some 2⟩]
      (fun _ => .raised)).2.2.2.2 (by decide)⟩

/-- One completed `Task.run`: `next_run` advances by `interval` from its
previous value, or is seeded from the start time; the guard flag is clear
again and the interval is untouched. -/
theorem task_run_step (ts : TaskState) (h : ts.is_running = false)
    (start : Int) (ok : Bool) :
    ((Task.run ts start ok).1).next_run
        = some (ts.next_run.getD start + ts.interval) ∧
    ((Task.run ts start ok).1).is_running = false ∧
    ((Task.run ts start ok).1).interval = ts.interval := by
  cases ok <;> cases hn : ts.next_run <;> simp [Task.run, h, hn]

/-- C5: after every completed run (successful or failed), `next_run` is
exactly its previous value plus `interval` when it was set, and the run's
start time plus `interval` when it was unset; consequently over any sequence
of completed runs the `next_run` values form an arithmetic progression with
step `interval`, independent of the runs' start times and outcomes. -/
theorem task_run_drift_free (ts : TaskState) (h : ts.is_running = false) :
    (∀ t start ok, ts.next_run = some t →
      ((Task.run ts start ok).1).next_run = some (t + ts.interval)) ∧
    (∀ start ok, ts.next_run = none →
      ((Task.run ts start ok).1).next_run = some (start + ts.interval)) ∧
    (∀ t ticks, ts.next_run = some t →
      (runSeq ts ticks).next_run = some (t + (ticks.length : Int) * ts.interval)) := by
  refine ⟨?_, ?_, ?_⟩
  · intro t start ok hn
    simpa [hn] using (task_run_step ts h start ok).1
  · intro start ok hn
    simpa [hn] using (task_run_step ts h start ok).1
  · intro t ticks
    induction ticks generalizing ts t with
    | nil => intro hn; simpa [runSeq] using hn
    | cons tick rest ih =>
        intro hn
        have hstep := task_run_step ts h tick.1 tick.2
        have hrec := ih (Task.run ts tick.1 tick.2).1 hstep.2.1 (t + ts.interval)
          (by rw [hstep.1, hn]; rfl)
        have : (runSeq ts (tick :: rest)).next_run
            = (runSeq (Task.run ts tick.1 tick.2).1 rest).next_run := by
          simp [runSeq]
        rw [this, hrec, hstep.2.2]
        congr 1
        push_cast [List.length_cons]
        ring

/-- C5 witness: interval 10, restored `next_run = 5`, two runs (one success,
one failure, at arbitrary wall-clock times): `next_run` ends at 5 + 2·10. -/
theorem task_run_drift_free_witness :
    (runSeq ⟨10, none, some 5, false, 0, 0⟩ [(100, true), (7, false)]).next_run
      = some 25 := by
  have h := (task_run_drift_free ⟨10, none, some 5, false, 0, 0⟩ rfl).2.2
    5 [(100, true), (7, false)] rfl
  simpa using h

/-- C6: a tick that fires while `is_running` is set returns at once: the
function is not invoked (second component `false`) and the task state —
including `next_run` and all counters — is unchanged, so the tick is dropped,
not queued. -/
theorem task_run_single_flight (ts : TaskState) (start : Int) (ok : Bool)
    (h : ts.is_running = true) :
    Task.run ts start ok = (ts, false) := by
  simp [Task.run, h]

/-- C6 witness: a concrete busy task state is returned untouched. -/
theorem task_run_single_flight_witness :
    Task.run ⟨10, none, some 5, true, 3, 1⟩ 42 true
      = (⟨10, none, some 5, true, 3, 1⟩, false) :=
  task_run_single_flight ⟨10, none, some 5, true, 3, 1⟩ 42 true rfl

/-- `countKey` at a candidate's own key counts the rows conflicting with it. -/
theorem countKey_eq_filter_sameKey (db : DB) (p : Candidate) :
    countKey db (p.ip, p.port, p.protocol)
      = (db.rows.filter (fun r => sameKey r p)).length :=
  rfl

/-- A key is absent exactly when no stored row conflicts with the candidate. -/
theorem countKey_zero_iff (db : DB) (p : Candidate) :
    countKey db (p.ip, p.port, p.protocol) = 0 ↔
      db.rows.any (fun r => sameKey r p) = false := by
  rw [countKey_eq_filter_sameKey]
  simp [List.length_eq_zero, List.filter_eq_nil_iff, List.any_eq_false]

/-- `ON CONFLICT DO NOTHING`: an upsert that hits an existing key leaves the
table untouched and returns no id. -/
theorem upsert_conflict (db : DB) (q : Candidate)
    (hhit : db.rows.any (fun r => sameKey r q) = true) :
    upsert db q = (db, none) := by
  simp [upsert, hhit]

/-- A fresh upsert appends the row under the next id and returns that id. -/
theorem upsert_fresh (db : DB) (p : Candidate)
    (hfresh : db.rows.any (fun r => sameKey r p) = false) :
    upsert db p =
      ({ rows := db.rows ++
          [⟨db.next_id, p.ip, p.port, p.protocol, p.country, p.source, p.status⟩]
         next_id := db.next_id + 1 },
       some db.next_id) := by
  simp [upsert, hfresh]

/-- Inserting a candidate's row adds exactly one row with its key. -/
theorem countKey_insert (db : DB) (p : Candidate) :
    countKey
      ⟨db.rows ++
        [⟨db.next_id, p.ip, p.port, p.protocol, p.country, p.source, p.status⟩],
       db.next_id + 1⟩
      (p.ip, p.port, p.protocol)
      = countKey db (p.ip, p.port, p.protocol) + 1 := by
  simp [countKey, List.filter_append]

/-- Once the key is present, every further upsert attempt with that key is a
silent no-op: the table is unchanged and each attempt returns no id. -/
theorem upsertAll_conflict (p : Candidate) : ∀ (ps : List Candidate) (db : DB),
    (∀ q ∈ ps, q.ip = p.ip ∧ q.port = p.port ∧ q.protocol = p.protocol) →
    1 ≤ countKey db (p.ip, p.port, p.protocol) →
    upsertAll db ps = (db, List.replicate ps.length none) := by
  intro ps
  induction ps with
  | nil => intro db _ _; rfl
  | cons q rest ih =>
      intro db hk hc
      obtain ⟨hip, hport, hproto⟩ := hk q (List.mem_cons_self q rest)
      have hpos : 0 < (db.rows.filter (fun r => sameKey r p)).length := by
        rw [← countKey_eq_filter_sameKey]
        omega
      obtain ⟨r, hr⟩ := List.exists_mem_of_length_pos hpos
      rw [List.mem_filter] at hr
      have hhit : db.rows.any (fun r => sameKey r q) = true := by
        rw [List.any_eq_true]
        refine ⟨r, hr.1, ?_⟩
        simpa [sameKey, hip, hport, hproto] using hr.2
      have hrest := ih db (fun x hx => hk x (List.mem_cons_of_mem q hx)) hc
      simp [upsertAll, upsert_conflict db q hhit, hrest, List.replicate_succ]

/-- C7: starting from a table without key `(ip, port, protocol)`, any
sequence of upsert attempts with that key (any serialisation of concurrent
`add_proxy` / `add_batch` row inserts) leaves exactly one row with the key;
the first attempt wins and returns the newly assigned id, and every
subsequent attempt is a silent no-op returning nothing. -/
theorem upsert_first_wins (db : DB) (p : Candidate) (ps : List Candidate)
    (hfresh : countKey db (p.ip, p.port, p.protocol) = 0)
    (hkeys : ∀ q ∈ ps, q.ip = p.ip ∧ q.port = p.port ∧ q.protocol = p.protocol) :
    countKey (upsertAll db (p :: ps)).1 (p.ip, p.port, p.protocol) = 1 ∧
    (upsertAll db (p :: ps)).2
      = some db.next_id :: List.replicate ps.length none := by
  have hany : db.rows.any (fun r => sameKey r p) = false :=
    (countKey_zero_iff db p).mp hfresh
  have h1 : countKey
      ⟨db.rows ++
        [⟨db.next_id, p.ip, p.port, p.protocol, p.country, p.source, p.status⟩],
       db.next_id + 1⟩
      (p.ip, p.port, p.protocol) = 1 := by
    rw [countKey_insert, hfresh]
  have hrest := upsertAll_conflict p ps
    ⟨db.rows ++
      [⟨db.next_id, p.ip, p.port, p.protocol, p.country, p.source, p.status⟩],
     db.next_id + 1⟩
    hkeys (by omega)
  simp [upsertAll, upsert_fresh db p hany, hrest, h1]

/-- C7 witness: two attempts with the same key on an empty table. -/
theorem upsert_first_wins_witness :
    countKey (upsertAll ⟨[], 1⟩
        [⟨"10.0.0.1", 8080, "http", none, "src-A", 0⟩,
         ⟨"10.0.0.1", 8080, "http", none, "src-B", 0⟩]).1
      ("10.0.0.1", 8080, "http") = 1 ∧
    (upsertAll ⟨[], 1⟩
        [⟨"10.0.0.1", 8080, "http", none, "src-A", 0⟩,
         ⟨"10.0.0.1", 8080, "http", none, "src-B", 0⟩]).2
      = [some 1, none] :=
  upsert_first_wins ⟨[], 1⟩ ⟨"10.0.0.1", 8080, "http", none, "src-A", 0⟩
    [⟨"10.0.0.1", 8080, "http", none, "src-B", 0⟩] (by decide) (by decide)

/-- Persisting a batch ignores entries whose proxy id is 0. -/
theorem execute_validation_skips_zero (now : Int) :
    ∀ (rs : List Verdict) (db : Store),
      execute_validation db rs now
        = execute_validation db (rs.filter (fun r => r.1 ≠ 0)) now := by
  intro rs
  induction rs with
  | nil => intro db; rfl
  | cons r t ih =>
      intro db
      by_cases hr : r.1 = 0
      · simpa [execute_validation, List.filter_cons, hr] using ih db
      · simpa [execute_validation, List.filter_cons, hr]
          using ih (storeRecord db r now)

/-- C10: a proxy whose id is `None` or `0` gets the verdict
`(0, False, None, None)` without any HTTP request being issued, and the
persistence loop of `execute_validation` never records a verdict whose proxy
id is 0: dropping those entries leaves the store transition unchanged. -/
theorem validate_skips_idless (p : Proxy) (h : p.id = none ∨ p.id = some 0) :
    (∀ http, validate_proxy p http = ((0, false, none, none), false)) ∧
    (∀ (db : Store) (rs : List Verdict) (now : Int),
      execute_validation db rs now
        = execute_validation db (rs.filter (fun r => r.1 ≠ 0)) now) := by
  constructor
  · intro http
    have hid : p.id.getD 0 = 0 := by
      rcases h with h | h <;> simp [h]
    simp [validate_proxy, hid]
  · intro db rs now
    exact execute_validation_skips_zero now rs db

/-- C10 witness: a concrete id-less proxy. -/
theorem validate_skips_idless_witness :
    validate_proxy ⟨"1.2.3.4", 80, "http", none⟩ .notOk
      = ((0, false, none, none), false) :=
  (validate_skips_idless ⟨"1.2.3.4", 80, "http", none⟩ (Or.inl rfl)).1 .notOk

end Scylla
